import Mathlib

/-!
Shallow embedding of the textweb adapter layer (src/tools/crewai.py and
src/tools/langchain.py): the response data model, the two response
normalizers, the HTTP request each tool issues, and the error handling of
the transport layer.  JSON objects returned by the remote service are
modelled as records with optional fields (a `none` field is a missing JSON
key), and JSON object bodies as association lists, preserving insertion
order exactly as Python dicts and `resp.json()` do.
-/

/-- One value of an element descriptor: `el` in the Python comprehensions.
Fields are `Option` because the code accesses them with `dict.get` and a
default. -/
structure ElementDesc where
  semantic : Option String
  text : Option String
deriving DecidableEq, Repr

/-- The `meta` object of a response: accessed via `meta.get('url', ...)`,
`meta.get('title', ...)` and (langchain only) `meta.get('totalRefs', 0)`. -/
structure MetaInfo where
  url : Option String
  title : Option String
  totalRefs : Option Nat
deriving DecidableEq, Repr

/-- A parsed JSON response (`result` in both files): `result.get("view", "")`,
`result.get("elements", {})`, `result.get("meta", {})`.  The element mapping
is a list of (ref key, descriptor) pairs in the iteration order of the
Python dict, which is the order the service returned. -/
structure PageSnapshot where
  view : Option String
  elements : Option (List (String × ElementDesc))
  meta : Option MetaInfo
deriving DecidableEq, Repr

/-- One line of the refs listing.  Both files contain the identical
f-string: `f"[{ref}] {el.get('semantic', '?')}: {el.get('text', '(no text)')}"`. -/
def elementLine (p : String × ElementDesc) : String :=
  "[" ++ p.1 ++ "] " ++ p.2.semantic.getD "?" ++ ": " ++ p.2.text.getD "(no text)"

/-- The joined refs block: `"\n".join(... for ref, el in elements.items())`. -/
def refsJoin (elements : List (String × ElementDesc)) : String :=
  String.intercalate "\n" (elements.map elementLine)

/-- The normalizer inside crewai.py's `_call` (lines 45-53): extracts
view/elements/meta with defaults and renders the final f-string
`f"URL: {...}\nTitle: {...}\n\n{view}\n\nInteractive elements:\n{refs}"`. -/
def CrewaiFormat (result : PageSnapshot) : String :=
  let view := result.view.getD ""
  let elements := result.elements.getD []
  let meta := result.meta.getD { url := none, title := none, totalRefs := none }
  let refs := refsJoin elements
  "URL: " ++ meta.url.getD "unknown" ++ "\nTitle: " ++ meta.title.getD "unknown" ++
    "\n\n" ++ view ++ "\n\nInteractive elements:\n" ++ refs

/-- langchain.py's `TextWebClient._format` (lines 72-82): same extraction, but
the rendered f-string also contains `\nRefs: {meta.get('totalRefs', 0)}`
after the Title field. -/
def TextWebClient_format (result : PageSnapshot) : String :=
  let view := result.view.getD ""
  let elements := result.elements.getD []
  let meta := result.meta.getD { url := none, title := none, totalRefs := none }
  let refs := refsJoin elements
  "URL: " ++ meta.url.getD "unknown" ++ "\nTitle: " ++ meta.title.getD "unknown" ++
    "\nRefs: " ++ toString (meta.totalRefs.getD 0) ++
    "\n\n" ++ view ++ "\n\nInteractive elements:\n" ++ refs

/-- The meta object after the `result.get("meta", {})` defaulting step. -/
def metaOf (r : PageSnapshot) : MetaInfo :=
  r.meta.getD { url := none, title := none, totalRefs := none }

/-- The URL header field: `meta.get('url', 'unknown')`. -/
def urlField (r : PageSnapshot) : String := (metaOf r).url.getD "unknown"

/-- The Title header field: `meta.get('title', 'unknown')`. -/
def titleField (r : PageSnapshot) : String := (metaOf r).title.getD "unknown"

/-- The `URL:` and `Title:` header lines shared verbatim by the two
normalizers. -/
def urlTitleOf (r : PageSnapshot) : String :=
  "URL: " ++ urlField r ++ "\nTitle: " ++ titleField r

/-- Everything after the Title (crewai) / Refs (langchain) header: blank
line, view, blank line, the `Interactive elements:` header and the joined
refs block.  This tail is shared verbatim by the two normalizers. -/
def tailOf (r : PageSnapshot) : String :=
  "\n\n" ++ r.view.getD "" ++ "\n\nInteractive elements:\n" ++
    refsJoin (r.elements.getD [])

/-- Everything of the crewai output before the refs block. -/
def crewaiHeaderOf (r : PageSnapshot) : String :=
  urlTitleOf r ++ "\n\n" ++ r.view.getD "" ++ "\n\nInteractive elements:\n"

/-- Everything of the langchain output before the refs block. -/
def langHeaderOf (r : PageSnapshot) : String :=
  urlTitleOf r ++ "\nRefs: " ++ toString ((metaOf r).totalRefs.getD 0) ++
    "\n\n" ++ r.view.getD "" ++ "\n\nInteractive elements:\n"

/-- The snapshot of the spec's formatting round-trip property. -/
def sampleSnapshot : PageSnapshot :=
  { view := some "HOME"
  , elements := some [("1", { semantic := some "button", text := some "Login" })]
  , meta := some { url := some "http://x", title := some "X", totalRefs := some 1 } }

/-! HTTP layer.  A JSON body value is a string or a number (the only value
shapes the adapters ever place in a request body), a body is an ordered
association list of key/value pairs as built by the Python dict literals. -/

/-- A JSON scalar placed in a request body. -/
inductive JsonVal where
  | str : String → JsonVal
  | num : Int → JsonVal
deriving DecidableEq, Repr

/-- One HTTP request as issued through the requests library: method, full
URL, optional JSON body (`none` for the body-less GET), and the timeout
passed as `timeout=30`. -/
structure HttpRequest where
  method : String
  url : String
  body : Option (List (String × JsonVal))
  timeout : Nat
deriving DecidableEq, Repr

/-- Python `base_url.rstrip('/')`: remove every trailing slash. -/
def rstripSlashes (s : String) : String :=
  String.mk ((s.data.reverse.dropWhile (fun c => c == '/')).reverse)

/-- The crewai module constant `DEFAULT_BASE_URL` (langchain.py defines the
same constant with the same value). -/
def DEFAULT_BASE_URL : String := "http://localhost:3000"

/-- The request built by crewai.py's `_call` (lines 36-41):
`url = f"{base_url.rstrip('/')}{endpoint}"`, then a GET without a body when
`method == "GET"`, otherwise a POST with `json=data or {}`; both with
`timeout=30`.  `data = none` models Python's `data=None` default, and
`data or {}` sends the empty object. -/
def Crewai_call_request (endpoint : String) (data : Option (List (String × JsonVal)))
    (method : String) (base_url : String) : HttpRequest :=
  let url := rstripSlashes base_url ++ endpoint
  if method = "GET" then
    { method := "GET", url := url, body := none, timeout := 30 }
  else
    { method := "POST", url := url, body := some (data.getD []), timeout := 30 }

/-! The six crewai tool classes.  Each is a pydantic model whose
construction-time state is its `name` and `description` fields (with the
defaults written in the source); `_run` never reads that state and calls
`_call` without a `base_url` argument, so every request uses
`DEFAULT_BASE_URL`. -/

/-- crewai.py `TextWebBrowseTool` (construction-time fields). -/
structure TextWebBrowseTool where
  name : String := "textweb_navigate"
  description : String := "Navigate to a URL and see it as a text grid. Interactive elements are marked with [ref] numbers for clicking/typing. ~500x smaller than screenshots, no vision model needed."
deriving DecidableEq, Repr

/-- crewai.py `TextWebClickTool` (construction-time fields). -/
structure TextWebClickTool where
  name : String := "textweb_click"
  description : String := "Click an interactive element by its [ref] number from the text grid."
deriving DecidableEq, Repr

/-- crewai.py `TextWebTypeTool` (construction-time fields). -/
structure TextWebTypeTool where
  name : String := "textweb_type"
  description : String := "Type text into an input field by its [ref] number."
deriving DecidableEq, Repr

/-- crewai.py `TextWebSelectTool` (construction-time fields). -/
structure TextWebSelectTool where
  name : String := "textweb_select"
  description : String := "Select a dropdown option by [ref] number."
deriving DecidableEq, Repr

/-- crewai.py `TextWebScrollTool` (construction-time fields). -/
structure TextWebScrollTool where
  name : String := "textweb_scroll"
  description : String := "Scroll the page up, down, or to top."
deriving DecidableEq, Repr

/-- crewai.py `TextWebSnapshotTool` (construction-time fields). -/
structure TextWebSnapshotTool where
  name : String := "textweb_snapshot"
  description : String := "Re-render the current page as text without navigating."
deriving DecidableEq, Repr

/-- `TextWebBrowseTool._run`: `_call("/navigate", {"url": url})`. -/
def TextWebBrowseTool.run (_t : TextWebBrowseTool) (url : String) : HttpRequest :=
  Crewai_call_request "/navigate" (some [("url", .str url)]) "POST" DEFAULT_BASE_URL

/-- `TextWebClickTool._run`: `_call("/click", {"ref": ref})`. -/
def TextWebClickTool.run (_t : TextWebClickTool) (ref : Int) : HttpRequest :=
  Crewai_call_request "/click" (some [("ref", .num ref)]) "POST" DEFAULT_BASE_URL

/-- `TextWebTypeTool._run`: `_call("/type", {"ref": ref, "text": text})`. -/
def TextWebTypeTool.run (_t : TextWebTypeTool) (ref : Int) (text : String) : HttpRequest :=
  Crewai_call_request "/type" (some [("ref", .num ref), ("text", .str text)]) "POST" DEFAULT_BASE_URL

/-- `TextWebSelectTool._run`: `_call("/select", {"ref": ref, "value": value})`. -/
def TextWebSelectTool.run (_t : TextWebSelectTool) (ref : Int) (value : String) : HttpRequest :=
  Crewai_call_request "/select" (some [("ref", .num ref), ("value", .str value)]) "POST" DEFAULT_BASE_URL

/-- `TextWebScrollTool._run`: `_call("/scroll", {"direction": direction})`.
The crewai `ScrollSchema` declares only `direction`; no amount is sent. -/
def TextWebScrollTool.run (_t : TextWebScrollTool) (direction : String) : HttpRequest :=
  Crewai_call_request "/scroll" (some [("direction", .str direction)]) "POST" DEFAULT_BASE_URL

/-- `TextWebSnapshotTool._run`: `_call("/snapshot", method="GET")`. -/
def TextWebSnapshotTool.run (_t : TextWebSnapshotTool) : HttpRequest :=
  Crewai_call_request "/snapshot" none "GET" DEFAULT_BASE_URL

/-! Connection identity.  `requests.Session()` allocates a fresh session
object; object identity is modelled by a natural-number id drawn from an
allocation counter.  crewai.py allocates one session at module import time
(`_session = requests.Session()`, line 33) and every `_call` uses it;
langchain.py allocates one per `TextWebClient` in `__init__`. -/

/-- Modelled from the spec: allocation of one fresh connection object by
`requests.Session()` (the requests library is an external collaborator; the
spec calls it "one persistent connection resource").  Takes the allocator
state and returns the fresh object id and the next state, so two
allocations never return the same id. -/
def requests_Session (st : Nat) : Nat × Nat := (st, st + 1)

/-- The crewai module-level `_session` object: one id fixed at import time
and shared by every crewai tool in the process. -/
def crewai_module_session : Nat := 0

/-- The session through which every crewai `_call` sends its request
(`_session.get` / `_session.post`), whichever tool instance invoked it. -/
def Crewai_call_session : Nat := crewai_module_session

/-- langchain.py `TextWebClient`: construction-time state set by
`__init__` — `self.base_url = base_url.rstrip("/")` and
`self.session = requests.Session()`. -/
structure TextWebClient where
  base_url : String
  session : Nat
deriving DecidableEq, Repr

/-- `TextWebClient.__init__(base_url)`: strips trailing slashes and
allocates a fresh session; returns the client and the next allocator
state. -/
def TextWebClient.init (base_url : String) (st : Nat) : TextWebClient × Nat :=
  let alloc := requests_Session st
  ({ base_url := rstripSlashes base_url, session := alloc.1 }, alloc.2)

/-- `TextWebClient._post` request: `self.session.post(f"{self.base_url}{endpoint}",
json=data, timeout=30)`. -/
def TextWebClient.post_request (c : TextWebClient) (endpoint : String)
    (data : List (String × JsonVal)) : HttpRequest :=
  { method := "POST", url := c.base_url ++ endpoint, body := some data, timeout := 30 }

/-- `TextWebClient._get` request: `self.session.get(f"{self.base_url}{endpoint}",
timeout=30)`. -/
def TextWebClient.get_request (c : TextWebClient) (endpoint : String) : HttpRequest :=
  { method := "GET", url := c.base_url ++ endpoint, body := none, timeout := 30 }

/-- `TextWebClient.navigate`: `self._post("/navigate", {"url": url})`. -/
def TextWebClient.navigate_request (c : TextWebClient) (url : String) : HttpRequest :=
  c.post_request "/navigate" [("url", .str url)]

/-- `TextWebClient.click`: `self._post("/click", {"ref": ref})`. -/
def TextWebClient.click_request (c : TextWebClient) (ref : Int) : HttpRequest :=
  c.post_request "/click" [("ref", .num ref)]

/-- `TextWebClient.type_text`: `self._post("/type", {"ref": ref, "text": text})`. -/
def TextWebClient.type_request (c : TextWebClient) (ref : Int) (text : String) : HttpRequest :=
  c.post_request "/type" [("ref", .num ref), ("text", .str text)]

/-- `TextWebClient.select`: `self._post("/select", {"ref": ref, "value": value})`. -/
def TextWebClient.select_request (c : TextWebClient) (ref : Int) (value : String) : HttpRequest :=
  c.post_request "/select" [("ref", .num ref), ("value", .str value)]

/-- `TextWebClient.scroll`: `self._post("/scroll", {"direction": direction,
"amount": amount})`. -/
def TextWebClient.scroll_request (c : TextWebClient) (direction : String)
    (amount : Int) : HttpRequest :=
  c.post_request "/scroll" [("direction", .str direction), ("amount", .num amount)]

/-- `TextWebClient.snapshot`: `self._get("/snapshot")`. -/
def TextWebClient.snapshot_request (c : TextWebClient) : HttpRequest :=
  c.get_request "/snapshot"

/-- The langchain scroll tool call boundary: `ScrollInput.amount` has
`default=1` and the factory lambda is `lambda direction, amount=1`, so an
omitted amount (`none`) becomes `1` before `client.scroll` runs. -/
def scroll_tool_request (c : TextWebClient) (direction : String)
    (amount : Option Int) : HttpRequest :=
  c.scroll_request direction (amount.getD 1)

/-- The session every request method of a client sends through
(`self.session.post` / `self.session.get`). -/
def TextWebClient.call_session (c : TextWebClient) : Nat := c.session

/-! Error handling of one HTTP call.  Both files run
`resp.raise_for_status()` followed by `resp.json()` with no surrounding
try/except and no retry loop, so the outcome classification of the call is
the one the spec assigns to the transport layer. -/

/-- What one HTTP exchange yields, before the adapter processes it: either
a network-level failure (timeout, connection refused, DNS failure: no
response obtained), or a response with a status code, a raw body, and the
body's JSON parse when it parses. -/
inductive HttpOutcome where
  | transportFail : HttpOutcome
  | response (status : Nat) (body : String) (json : Option PageSnapshot) : HttpOutcome

/-- The spec's error taxonomy for the transport layer: `RemoteServiceError`
carries status code and raw body; `TransportError` is a distinct class. -/
inductive AdapterError where
  | remoteServiceError (status : Nat) (body : String) : AdapterError
  | transportError : AdapterError
deriving DecidableEq, Repr

/-- Status codes accepted by `raise_for_status` per the spec's contract
("any non-2xx HTTP status ... fails"). -/
def is2xx (status : Nat) : Bool := 200 ≤ status && status < 300

/-- Modelled from the spec: the fate of one call through the requests
library (an external collaborator not under src/) — a network-level failure
fails with `TransportError`; then `resp.raise_for_status()` fails any
non-2xx response with a `RemoteServiceError` carrying status and raw body;
then `resp.json()` fails an unparseable body the same way; otherwise the
parsed snapshot is returned.  No branch retries or recovers. -/
def handle_response (o : HttpOutcome) : Except AdapterError PageSnapshot :=
  match o with
  | .transportFail => .error .transportError
  | .response status body json =>
    if is2xx status then
      match json with
      | some r => .ok r
      | none => .error (.remoteServiceError status body)
    else
      .error (.remoteServiceError status body)

/-- The response-processing half of crewai.py's `_call`: handle the HTTP
outcome, then format the parsed snapshot; errors propagate untouched. -/
def Crewai_call_result (o : HttpOutcome) : Except AdapterError String :=
  (handle_response o).map CrewaiFormat

/-- The response-processing half of every langchain tool method
(`self._post`/`self._get` then `self._format`); errors propagate
untouched. -/
def TextWebClient_call_result (o : HttpOutcome) : Except AdapterError String :=
  (handle_response o).map TextWebClient_format

/-- The session the crewai `_call` of any tool instance sends through:
always the module-level object, whichever `TextWebBrowseTool` instance
invoked `_run`. -/
def TextWebBrowseTool.sessionUsed (_t : TextWebBrowseTool) : Nat := Crewai_call_session

/-- The session the crewai `_call` of any tool instance sends through:
always the module-level object, whichever `TextWebClickTool` instance
invoked `_run`. -/
def TextWebClickTool.sessionUsed (_t : TextWebClickTool) : Nat := Crewai_call_session

/-- A snapshot response on which the two adapters' navigate outputs are
compared. -/
def c1Snapshot : PageSnapshot :=
  { view := some "V"
  , elements := some []
  , meta := some { url := some "http://a", title := some "A", totalRefs := none } }

/-! Theorems, one per claim. -/

/-- C1 counterexample: on the same 200 response carrying `c1Snapshot`, the
crewai navigate path and the langchain navigate path return different
strings — the langchain output carries an extra `Refs:` header line — so
the outputs are not byte-identical. -/
theorem c1_counterexample :
    Crewai_call_result (HttpOutcome.response 200 "{}" (some c1Snapshot)) =
      Except.ok "URL: http://a\nTitle: A\n\nV\n\nInteractive elements:\n" ∧
    TextWebClient_call_result (HttpOutcome.response 200 "{}" (some c1Snapshot)) =
      Except.ok "URL: http://a\nTitle: A\nRefs: 0\n\nV\n\nInteractive elements:\n" ∧
    ("URL: http://a\nTitle: A\n\nV\n\nInteractive elements:\n" : String) ≠
      "URL: http://a\nTitle: A\nRefs: 0\n\nV\n\nInteractive elements:\n" :=
  ⟨rfl, rfl, by decide⟩

/-- C1 amended: on every snapshot the two normalizers agree on the URL and
Title header and on everything from the blank line before the view to the
end; the langchain output differs only by inserting one extra header line
`Refs: <meta.totalRefs, default 0>` after the Title line. -/
theorem c1_navigate_formats (r : PageSnapshot) :
    CrewaiFormat r = urlTitleOf r ++ tailOf r ∧
    TextWebClient_format r =
      urlTitleOf r ++ "\nRefs: " ++ toString ((metaOf r).totalRefs.getD 0) ++ tailOf r := by
  constructor <;>
    simp [CrewaiFormat, TextWebClient_format, urlTitleOf, urlField, titleField, metaOf,
      tailOf, String.append_assoc]

/-- C2 counterexample: on the spec's round-trip snapshot the langchain
normalizer does not return the claimed string (it inserts a `Refs: 1`
line). -/
theorem c2_counterexample :
    TextWebClient_format sampleSnapshot ≠
      "URL: http://x\nTitle: X\n\nHOME\n\nInteractive elements:\n[1] button: Login" := by
  decide

/-- C2 amended: on the round-trip snapshot the crewai normalizer returns
exactly the claimed string, and the langchain normalizer returns the same
string with the extra header line `Refs: 1` after the Title line. -/
theorem c2_round_trip :
    CrewaiFormat sampleSnapshot =
      "URL: http://x\nTitle: X\n\nHOME\n\nInteractive elements:\n[1] button: Login" ∧
    TextWebClient_format sampleSnapshot =
      "URL: http://x\nTitle: X\nRefs: 1\n\nHOME\n\nInteractive elements:\n[1] button: Login" :=
  ⟨rfl, rfl⟩

/-- C3 counterexample: an element whose `text` field is present but equal
to the empty string renders with an empty text part, not with
`(no text)`; the full crewai output shows the line `[1] button: ` at the
end. -/
theorem c3_counterexample :
    elementLine ("1", { semantic := some "button", text := some "" }) = "[1] button: " ∧
    elementLine ("1", { semantic := some "button", text := some "" }) ≠ "[1] button: (no text)" ∧
    CrewaiFormat { view := none
                 , elements := some [("1", { semantic := some "button", text := some "" })]
                 , meta := none } =
      "URL: unknown\nTitle: unknown\n\n\n\nInteractive elements:\n[1] button: " :=
  ⟨rfl, by decide, rfl⟩

/-- C3 amended: a missing `text` field renders as `(no text)` and a missing
`semantic` as `?` (a present empty-string `text` renders as the empty
string, not as `(no text)`); a missing `meta.url` or `meta.title` renders
the corresponding header field as `unknown`, and both normalizers place
those fields in the header. -/
theorem c3_defaults (r : PageSnapshot) (ref : String) (e : ElementDesc) :
    (e.text = none →
      elementLine (ref, e) = "[" ++ ref ++ "] " ++ e.semantic.getD "?" ++ ": (no text)") ∧
    (e.semantic = none →
      elementLine (ref, e) = "[" ++ ref ++ "] ?: " ++ e.text.getD "(no text)") ∧
    (e.text = some "" →
      elementLine (ref, e) = "[" ++ ref ++ "] " ++ e.semantic.getD "?" ++ ": ") ∧
    ((metaOf r).url = none → urlField r = "unknown") ∧
    ((metaOf r).title = none → titleField r = "unknown") ∧
    CrewaiFormat r = "URL: " ++ urlField r ++ "\nTitle: " ++ titleField r ++ tailOf r ∧
    TextWebClient_format r = "URL: " ++ urlField r ++ "\nTitle: " ++ titleField r ++
      "\nRefs: " ++ toString ((metaOf r).totalRefs.getD 0) ++ tailOf r := by
  refine ⟨fun h => ?_, fun h => ?_, fun h => ?_, fun h => ?_, fun h => ?_, ?_, ?_⟩
  · simp [elementLine, h, String.append_assoc]
  · simp [elementLine, h, String.append_assoc]
  · simp [elementLine, h, String.append_assoc]
  · simp [urlField, h]
  · simp [titleField, h]
  · simp [CrewaiFormat, urlField, titleField, metaOf, tailOf, String.append_assoc]
  · simp [TextWebClient_format, urlField, titleField, metaOf, tailOf, String.append_assoc]

/-- C3 witness: the defaults at a concrete fully-missing input. -/
theorem c3_defaults_witness :
    elementLine ("1", { semantic := none, text := none }) = "[1] ?: (no text)" ∧
    urlField { view := none, elements := none, meta := none } = "unknown" := by
  constructor
  · rw [(c3_defaults ⟨none, none, none⟩ "1" ⟨none, none⟩).1 rfl]; rfl
  · exact (c3_defaults ⟨none, none, none⟩ "1" ⟨none, none⟩).2.2.2.1 rfl

/-- C4: in both adapters a non-2xx status fails with a
`remoteServiceError` carrying the status code and raw body, a 200-level
response whose body does not parse as JSON fails the same way, a
network-level failure fails with `transportError`, and the two error
classes are distinct; no branch returns a recovered/retried `ok`. -/
theorem c4_error_taxonomy (s : Nat) (b : String) (j : Option PageSnapshot) :
    (is2xx s = false →
      Crewai_call_result (.response s b j) = .error (.remoteServiceError s b) ∧
      TextWebClient_call_result (.response s b j) = .error (.remoteServiceError s b)) ∧
    (j = none →
      Crewai_call_result (.response s b j) = .error (.remoteServiceError s b) ∧
      TextWebClient_call_result (.response s b j) = .error (.remoteServiceError s b)) ∧
    Crewai_call_result .transportFail = .error .transportError ∧
    TextWebClient_call_result .transportFail = .error .transportError ∧
    (∀ s2 b2, AdapterError.transportError ≠ AdapterError.remoteServiceError s2 b2) := by
  refine ⟨fun h => ?_, fun h => ?_, rfl, rfl, fun s2 b2 h => by cases h⟩
  · constructor <;>
      simp [Crewai_call_result, TextWebClient_call_result, handle_response, Except.map, h]
  · constructor <;>
      · cases h2 : is2xx s <;>
          simp [Crewai_call_result, TextWebClient_call_result, handle_response, Except.map,
            h, h2]

/-- C4 witness: a 500 response with an unparseable body fails both
adapters with the same `remoteServiceError`. -/
theorem c4_error_taxonomy_witness :
    Crewai_call_result (.response 500 "oops" none) =
      .error (.remoteServiceError 500 "oops") ∧
    TextWebClient_call_result (.response 500 "oops" none) =
      .error (.remoteServiceError 500 "oops") :=
  (c4_error_taxonomy 500 "oops" none).1 (by decide)

/-- C5: in both adapters the snapshot action issues a body-less GET to
`/snapshot` and the other five actions issue POSTs with a JSON body to
their 1:1-mapped paths; a crewai POST with no data sends the empty JSON
object; every request carries the fixed 30-unit timeout. -/
theorem c5_endpoint_mapping (c : TextWebClient)
    (t1 : TextWebBrowseTool) (t2 : TextWebClickTool) (t3 : TextWebTypeTool)
    (t4 : TextWebSelectTool) (t5 : TextWebScrollTool) (t6 : TextWebSnapshotTool)
    (url text value direction : String) (ref : Int) :
    t6.run = { method := "GET", url := DEFAULT_BASE_URL ++ "/snapshot",
               body := none, timeout := 30 } ∧
    t1.run url = { method := "POST", url := DEFAULT_BASE_URL ++ "/navigate",
                   body := some [("url", .str url)], timeout := 30 } ∧
    t2.run ref = { method := "POST", url := DEFAULT_BASE_URL ++ "/click",
                   body := some [("ref", .num ref)], timeout := 30 } ∧
    t3.run ref text = { method := "POST", url := DEFAULT_BASE_URL ++ "/type",
                        body := some [("ref", .num ref), ("text", .str text)], timeout := 30 } ∧
    t4.run ref value = { method := "POST", url := DEFAULT_BASE_URL ++ "/select",
                         body := some [("ref", .num ref), ("value", .str value)], timeout := 30 } ∧
    t5.run direction = { method := "POST", url := DEFAULT_BASE_URL ++ "/scroll",
                         body := some [("direction", .str direction)], timeout := 30 } ∧
    c.snapshot_request = { method := "GET", url := c.base_url ++ "/snapshot",
                           body := none, timeout := 30 } ∧
    c.navigate_request url = { method := "POST", url := c.base_url ++ "/navigate",
                               body := some [("url", .str url)], timeout := 30 } ∧
    c.click_request ref = { method := "POST", url := c.base_url ++ "/click",
                            body := some [("ref", .num ref)], timeout := 30 } ∧
    c.type_request ref text = { method := "POST", url := c.base_url ++ "/type",
                                body := some [("ref", .num ref), ("text", .str text)], timeout := 30 } ∧
    c.select_request ref value = { method := "POST", url := c.base_url ++ "/select",
                                   body := some [("ref", .num ref), ("value", .str value)], timeout := 30 } ∧
    c.scroll_request direction 1 = { method := "POST", url := c.base_url ++ "/scroll",
                                     body := some [("direction", .str direction), ("amount", .num 1)], timeout := 30 } ∧
    (∀ ep b2, (Crewai_call_request ep none "POST" b2).body = some []) :=
  ⟨rfl, rfl, rfl, rfl, rfl, rfl, rfl, rfl, rfl, rfl, rfl, rfl, fun _ _ => rfl⟩

/-- C6 counterexample: the crewai scroll tool's POST body holds only the
direction; it has no `amount` key at all. -/
theorem c6_counterexample :
    (TextWebScrollTool.run {} "down").body = some [("direction", JsonVal.str "down")] ∧
    ((TextWebScrollTool.run {} "down").body.getD []).lookup "amount" = none :=
  ⟨rfl, rfl⟩

/-- C6 amended: in the langchain adapter scroll takes a required direction
and an optional amount defaulting to 1 and POSTs both to `/scroll`; in the
crewai adapter scroll takes only a direction and its POST body to
`/scroll` holds only the direction. -/
theorem c6_scroll (c : TextWebClient) (d : String) (a : Option Int)
    (t : TextWebScrollTool) :
    scroll_tool_request c d a =
      { method := "POST", url := c.base_url ++ "/scroll",
        body := some [("direction", .str d), ("amount", .num (a.getD 1))], timeout := 30 } ∧
    scroll_tool_request c d none =
      { method := "POST", url := c.base_url ++ "/scroll",
        body := some [("direction", .str d), ("amount", .num 1)], timeout := 30 } ∧
    TextWebScrollTool.run t d =
      { method := "POST", url := DEFAULT_BASE_URL ++ "/scroll",
        body := some [("direction", .str d)], timeout := 30 } :=
  ⟨rfl, rfl, rfl⟩

/-- C7 counterexample: crewai tool instances carry no base-URL state, so
two differently constructed instances both send their navigate request to
the default `http://localhost:3000` — the base URL is not overridable per
crewai adapter instance at construction. -/
theorem c7_counterexample :
    (TextWebBrowseTool.run { name := "other", description := "other" } "http://a").url =
      "http://localhost:3000/navigate" ∧
    (TextWebBrowseTool.run {} "http://a").url = "http://localhost:3000/navigate" ∧
    ({ name := "other", description := "other" } : TextWebBrowseTool) ≠ {} :=
  ⟨rfl, rfl, by decide⟩

/-- C7 amended: the langchain client's base URL defaults to
`http://localhost:3000` and is set per client instance at construction
(trailing slashes stripped), and every request of a client uses its stored
base URL; every crewai tool request always uses the default base URL. -/
theorem c7_base_url (b : String) (st : Nat) (u : String)
    (t : TextWebBrowseTool) (c : TextWebClient) :
    ((TextWebClient.init b st).1.navigate_request u).url = rstripSlashes b ++ "/navigate" ∧
    ((TextWebClient.init DEFAULT_BASE_URL st).1.navigate_request u).url =
      "http://localhost:3000/navigate" ∧
    (c.navigate_request u).url = c.base_url ++ "/navigate" ∧
    (TextWebBrowseTool.run t u).url = "http://localhost:3000/navigate" :=
  ⟨rfl, rfl, rfl, rfl⟩

/-- C8: both normalizers emit the refs block as the join of the element
lines in the iteration order of the elements mapping, and the k-th emitted
line is the rendering of the k-th entry of the input mapping (no
re-sorting by ref value). -/
theorem c8_element_order (r : PageSnapshot) (k : Nat) :
    CrewaiFormat r = crewaiHeaderOf r ++ refsJoin (r.elements.getD []) ∧
    TextWebClient_format r = langHeaderOf r ++ refsJoin (r.elements.getD []) ∧
    refsJoin (r.elements.getD []) =
      String.intercalate "\n" ((r.elements.getD []).map elementLine) ∧
    ((r.elements.getD []).map elementLine)[k]? =
      ((r.elements.getD [])[k]?).map elementLine := by
  refine ⟨?_, ?_, rfl, ?_⟩
  · simp [CrewaiFormat, crewaiHeaderOf, urlTitleOf, urlField, titleField, metaOf,
      String.append_assoc]
  · simp [TextWebClient_format, langHeaderOf, urlTitleOf, urlField, titleField, metaOf,
      String.append_assoc]
  · simp

/-- C9 counterexample: two distinct crewai tool instances send their calls
through one and the same module-level session object, so the connection is
shared process-wide rather than owned per adapter instance. -/
theorem c9_counterexample :
    TextWebBrowseTool.sessionUsed { name := "a", description := "b" } =
      TextWebClickTool.sessionUsed { name := "c", description := "d" } ∧
    TextWebBrowseTool.sessionUsed {} = crewai_module_session ∧
    ({ name := "a", description := "b" } : TextWebBrowseTool) ≠ {} :=
  ⟨rfl, rfl, by decide⟩

/-- C9 amended: every call of a langchain client goes through the session
allocated for that client at construction, and two separately constructed
clients hold distinct sessions; every crewai tool call, from any tool
instance, goes through the one module-level session. -/
theorem c9_sessions (st : Nat) (b1 b2 : String)
    (t : TextWebBrowseTool) (t2 : TextWebClickTool) (c : TextWebClient) :
    c.call_session = c.session ∧
    (TextWebClient.init b1 st).1.call_session = (TextWebClient.init b1 st).1.session ∧
    (TextWebClient.init b1 st).1.session ≠
      (TextWebClient.init b2 (TextWebClient.init b1 st).2).1.session ∧
    t.sessionUsed = crewai_module_session ∧
    t2.sessionUsed = crewai_module_session := by
  refine ⟨rfl, rfl, ?_, rfl, rfl⟩
  simp [TextWebClient.init, requests_Session]

/-- C10: when the elements mapping is empty, both normalizers still emit
the `Interactive elements:` header followed by a final newline and an
empty refs block, so the output ends right after that newline. -/
theorem c10_empty_elements (r : PageSnapshot) (h : r.elements.getD [] = []) :
    CrewaiFormat r = crewaiHeaderOf r ∧
    TextWebClient_format r = langHeaderOf r ∧
    crewaiHeaderOf r = urlTitleOf r ++ "\n\n" ++ r.view.getD "" ++
      "\n\nInteractive elements:\n" ∧
    langHeaderOf r = urlTitleOf r ++ "\nRefs: " ++ toString ((metaOf r).totalRefs.getD 0) ++
      "\n\n" ++ r.view.getD "" ++ "\n\nInteractive elements:\n" := by
  refine ⟨?_, ?_, rfl, rfl⟩
  · simp [CrewaiFormat, crewaiHeaderOf, urlTitleOf, urlField, titleField, metaOf, h,
      refsJoin, String.intercalate, String.append_assoc]
  · simp [TextWebClient_format, langHeaderOf, urlTitleOf, urlField, titleField, metaOf, h,
      refsJoin, String.intercalate, String.append_assoc]

/-- C10 witness: the empty-elements output at a concrete snapshot. -/
theorem c10_empty_elements_witness :
    CrewaiFormat { view := none, elements := some [], meta := none } =
      crewaiHeaderOf { view := none, elements := some [], meta := none } ∧
    TextWebClient_format { view := none, elements := some [], meta := none } =
      langHeaderOf { view := none, elements := some [], meta := none } :=
  ⟨(c10_empty_elements ⟨none, some [], none⟩ rfl).1,
   (c10_empty_elements ⟨none, some [], none⟩ rfl).2.1⟩
